import Mathlib

/-!
Shallow embedding of the MP3Converter client (`frontend/src/App.jsx`).

Times are modelled at second granularity as integers (the specification fixes
second-granularity semantics for the UI contract, and every value the client
feeds into the trim logic is produced in whole seconds); strings are Lean
strings; JavaScript `undefined` and `null` are `Option.none`.
-/

/-! ### JavaScript primitives -/

/-- JavaScript `s || d` for strings: the empty string is falsy. -/
def jsOrS (s d : String) : String := if s = "" then d else s

/-- JavaScript `x || d` where `x : string | null`: both `null` and `""` are falsy. -/
def jsStrOr (x : Option String) (d : String) : String :=
  match x with
  | none => d
  | some s => jsOrS s d

/-- JavaScript `s || undefined` for a string field: `""` becomes `undefined`. -/
def jsStrOrUndef (s : String) : Option String := if s = "" then none else some s

/-- JavaScript `n || 0` for an integer: only `0` is falsy. -/
def jsNumOrZero (n : Int) : Int := if n = 0 then 0 else n

/-- JavaScript `n || undefined` for an integer: `0` becomes `undefined`. -/
def jsNumOrUndef (n : Int) : Option Int := if n = 0 then none else some n

/-! ### Decimal digits, `toString`, `padStart`, `split`, `parseInt` -/

/-- The decimal digit character table used by `Number.prototype.toString()`. -/
def digitChar (d : Nat) : Char :=
  match d with
  | 0 => '0' | 1 => '1' | 2 => '2' | 3 => '3' | 4 => '4'
  | 5 => '5' | 6 => '6' | 7 => '7' | 8 => '8' | _ => '9'

/-- Fuel-driven decimal digit emitter: most significant digit first, digits
accumulated in front of `acc`. -/
def natToDigitsAux : Nat → Nat → List Char → List Char
  | 0, _, acc => acc
  | fuel + 1, n, acc =>
    if n < 10 then digitChar n :: acc
    else natToDigitsAux fuel (n / 10) (digitChar (n % 10) :: acc)

/-- Decimal digits of `n`: the model of `Number.prototype.toString()` on a
non-negative whole number. -/
def natToDigits (n : Nat) : List Char := natToDigitsAux (n + 1) n []

/-- `Number.prototype.toString()` on a non-negative whole number. -/
def natToString (n : Nat) : String := ⟨natToDigits n⟩

/-- Model of `String.prototype.padStart(2, '0')` on the character list. -/
def padStart2 (l : List Char) : List Char := List.replicate (2 - l.length) '0' ++ l

/-- Model of `String.prototype.padStart(2, '0')`. -/
def padStart2S (s : String) : String := ⟨padStart2 s.data⟩

/-- Model of `String.prototype.split(':')` on the character list. -/
def splitOnColon : List Char → List (List Char)
  | [] => [[]]
  | c :: t =>
    if c = ':' then [] :: splitOnColon t
    else
      match splitOnColon t with
      | [] => [[c]]
      | h :: r => (c :: h) :: r

/-- The value of a run of decimal digit characters, most significant first. -/
def digitsToNat (l : List Char) : Nat :=
  l.foldl (fun a c => a * 10 + (c.toNat - 48)) 0

/-- Model of `parseInt(s, 10)`: skip leading whitespace, take an optional sign,
then the maximal run of decimal digits; `none` (JS `NaN`) when no digit
follows, otherwise the signed value of the digit run. -/
def jsParseInt (l : List Char) : Option Int :=
  let l1 := l.dropWhile Char.isWhitespace
  let sign : Int := if l1.head? = some '-' then -1 else 1
  let l2 := if l1.head? = some '-' ∨ l1.head? = some '+' then l1.tail else l1
  let ds := l2.takeWhile Char.isDigit
  if ds = [] then none else some (sign * (digitsToNat ds : Int))

/-! ### `formatTime`, `parseTimeInput` and the `TimeInput` blur handler -/

/-- A JavaScript number at second granularity: `NaN` or a whole number. -/
inductive JSNum where
  | nan : JSNum
  | num : Int → JSNum

/-- `formatTime` (App.jsx lines 21 to 26): seconds to `"MM:SS"`; a `NaN` or
negative input yields `"00:00"`. -/
def formatTime : JSNum → String
  | .nan => "00:00"
  | .num z =>
    if z < 0 then "00:00"
    else
      padStart2S (natToString ((z / 60).toNat)) ++ ":"
        ++ padStart2S (natToString ((z % 60).toNat))

/-- `parseTimeInput` (App.jsx lines 29 to 38): split on `':'`; anything other
than exactly two parts gives `0`; `parseInt` each part, `NaN` in either gives
`0`; otherwise `mins * 60 + secs`. -/
def parseTimeInput (timeStr : String) : Int :=
  match splitOnColon timeStr.data with
  | [p0, p1] =>
    match jsParseInt p0, jsParseInt p1 with
    | some mins, some secs => mins * 60 + secs
    | _, _ => 0
  | _ => 0

/-- The `TimeInput` blur handler (App.jsx lines 64 to 71): parse the typed
text, then clamp with `Math.min(Math.max(0, seconds), max)`; the result is
what `onChange` receives. -/
def timeInputCommit (text : String) (mx : Int) : Int :=
  min (max 0 (parseTimeInput text)) mx

/-! ### The form state -/

/-- The `formData` react state (App.jsx lines 95 to 103). -/
structure FormData where
  url : String
  title : String
  artist : String
  album : String
  genre : String
  start : Int
  «end» : Int
deriving DecidableEq

/-- The initial `formData` (App.jsx lines 95 to 103). -/
def initialFormData : FormData :=
  { url := "", title := "", artist := "", album := "", genre := "", start := 0, «end» := 0 }

/-- The five text inputs wired to `handleChange` through their `name`
attribute (App.jsx lines 366 to 374 and 550 to 581): `url`, `title`,
`artist`, `album`, `genre`. No rendered input is named `start` or `end`. -/
inductive FormField where
  | url | title | artist | album | genre

/-- `handleChange` (App.jsx lines 123 to 126): overwrite the named field with
the input's current text. -/
def handleChange (f : FormField) (v : String) (fd : FormData) : FormData :=
  match f with
  | .url => { fd with url := v }
  | .title => { fd with title := v }
  | .artist => { fd with artist := v }
  | .album => { fd with album := v }
  | .genre => { fd with genre := v }

/-- Form states reachable in the running app: the initial state followed by
any sequence of edits through the five rendered inputs. -/
inductive ReachableForm : FormData → Prop where
  | init : ReachableForm initialFormData
  | change (f : FormField) (v : String) (fd : FormData) :
      ReachableForm fd → ReachableForm (handleChange f v fd)

/-! ### URL validation -/

/-- Does `l` start with `p`? -/
def startsWithL : List Char → List Char → Bool
  | _, [] => true
  | [], _ :: _ => false
  | c :: cs, p :: ps => c = p && startsWithL cs ps

/-- Does the list contain `p` as a contiguous run? -/
def containsSub (p : List Char) : List Char → Bool
  | [] => startsWithL [] p
  | c :: t => startsWithL (c :: t) p || containsSub p t

/-- The URL validation of `handleConvert` (App.jsx line 152): `formData.url`
must be truthy and `url.match(/youtube\.com|youtu\.be/)` non-null, that is,
the URL contains `"youtube.com"` or `"youtu.be"` as a substring (the regular
expression is unanchored and its dots are escaped). -/
def isYoutubeUrl (s : String) : Bool :=
  s != "" && (containsSub "youtube.com".data s.data || containsSub "youtu.be".data s.data)

/-! ### Request construction -/

/-- The JSON body of a conversion request. Fields sent as `undefined` are
dropped by `JSON.stringify`, hence `Option`. -/
structure RequestBody where
  url : String
  title : Option String
  artist : Option String
  album : Option String
  genre : Option String
  start : Int
  «end» : Option Int
deriving DecidableEq

/-- The body built by `handleConvert` (App.jsx lines 166 to 174). -/
def convertBody (fd : FormData) : RequestBody :=
  { url := fd.url
    title := jsStrOrUndef fd.title
    artist := jsStrOrUndef fd.artist
    album := jsStrOrUndef fd.album
    genre := jsStrOrUndef fd.genre
    start := jsNumOrZero fd.start
    «end» := jsNumOrUndef fd.«end» }

/-- The body built by `handleDownload` (App.jsx lines 220 to 228). -/
def downloadBody (fd : FormData) (rangeValues : Int × Int) : RequestBody :=
  { url := fd.url
    title := jsStrOrUndef fd.title
    artist := jsStrOrUndef fd.artist
    album := jsStrOrUndef fd.album
    genre := jsStrOrUndef fd.genre
    start := rangeValues.1
    «end» := some rangeValues.2 }

/-- A `fetch` call: its URL argument, HTTP method and JSON body. -/
structure FetchRequest where
  url : String
  method : String
  body : RequestBody
deriving DecidableEq

/-- The `fetch` issued by `handleConvert` (App.jsx lines 161 to 175). The URL
argument in the source is the ordinary double-quoted string literal
`"${API_BASE}/api/convert"` — not a template literal — so the characters
`${API_BASE}` are sent verbatim and the `API_BASE` constant of line 18 is
never interpolated. -/
def convertFetch (fd : FormData) : FetchRequest :=
  { url := "${API_BASE}/api/convert", method := "POST", body := convertBody fd }

/-- The `fetch` issued by `handleDownload` (App.jsx lines 215 to 229), with
the same double-quoted URL literal as `convertFetch`. -/
def downloadFetch (fd : FormData) (rangeValues : Int × Int) : FetchRequest :=
  { url := "${API_BASE}/api/convert", method := "POST", body := downloadBody fd rangeValues }

/-- Modelled from the spec: the intended request target, the single
`POST /api/convert` endpoint of the API base (spec section 6). The code's
counterpart is the `fetch` URL argument; claim C1 compares the two. -/
def apiEndpoint (base : String) : String := base ++ "/api/convert"

/-! ### Response handling -/

/-- The visible shape of a `/api/convert` response: the HTTP ok flag, the
`X-Video-Title` header (`none` when absent), the `error` field of the JSON
failure body (`none` when absent), and the object URL of the audio blob. -/
structure ConvertResponse where
  ok : Bool
  xVideoTitle : Option String
  errorField : Option String
  blobUrl : String
deriving DecidableEq

/-- The react state written by `handleConvert`'s response handling. -/
structure ConvState where
  status : String
  error : Option String
  isConverted : Bool
  audioUrl : String
  videoTitle : String
deriving DecidableEq

/-- Response handling of `handleConvert` (App.jsx lines 177 to 202), starting
from the reset state of lines 132 to 149: on `ok` the title header is read
(`ytTitle || " "` under JS truthiness), the blob URL stored and the success
status set; otherwise `Error(errorData.error || "Conversion failed")` is
thrown, caught, and its message displayed while the audio state keeps its
reset values. -/
def processConvertResponse (resp : ConvertResponse) : ConvState :=
  if resp.ok then
    { status := "Conversion complete!"
      error := none
      isConverted := true
      audioUrl := resp.blobUrl
      videoTitle := jsStrOr resp.xVideoTitle " " }
  else
    { status := "Failed to convert"
      error := some (jsStrOr resp.errorField "Conversion failed")
      isConverted := false
      audioUrl := ""
      videoTitle := "" }

/-- A run of `handleConvert`: the network request it issued, if any, and the
resulting react state. -/
structure ConvertAttempt where
  request : Option FetchRequest
  state : ConvState
deriving DecidableEq

/-- `handleConvert` (App.jsx lines 131 to 203) as a function of the form state
and of the network's response to the request it would issue: URL validation
first (lines 151 to 156: error message, no fetch), then the fetch of lines
161 to 175 and the response handling. -/
def handleConvert (fd : FormData) (resp : ConvertResponse) : ConvertAttempt :=
  if isYoutubeUrl fd.url then
    { request := some (convertFetch fd), state := processConvertResponse resp }
  else
    { request := none
      state := { status := "", error := some "Please enter a valid YouTube URL",
                 isConverted := false, audioUrl := "", videoTitle := "" } }

/-- The download anchor's filename (App.jsx line 241):
`` `${formData.title || "download"}.mp3` ``. -/
def downloadFilename (fd : FormData) : String := jsOrS fd.title "download" ++ ".mp3"

/-! ### Playback and trim handlers -/

/-- The slice of the audio element's state the handlers touch. -/
structure AudioEl where
  currentTime : Int
  paused : Bool
deriving DecidableEq

/-- The react state used by the playback and trim handlers: the selected
range, the loaded duration, the audio element (if mounted), the playing flag
and the displayed playback time. -/
structure PlayerState where
  rangeValues : Int × Int
  audioDuration : Int
  audio : Option AudioEl
  isPlaying : Bool
  currentTime : Int
deriving DecidableEq

/-- The 100 ms polling handler `updateTime` (App.jsx lines 294 to 305): show
the element's position; once it reaches `rangeValues[1]`, pause, clear
`isPlaying` and jump back to `rangeValues[0]`. -/
def updateTime (st : PlayerState) : PlayerState :=
  match st.audio with
  | none => st
  | some a =>
    let st1 := { st with currentTime := a.currentTime }
    if a.currentTime ≥ st.rangeValues.2 then
      { st1 with audio := some { currentTime := st.rangeValues.1, paused := true },
                 isPlaying := false }
    else st1

/-- The audio element's `onTimeUpdate` handler (App.jsx lines 534 to 541):
once the position reaches `rangeValues[1]`, pause, clear `isPlaying` and jump
back to `rangeValues[0]`. -/
def onTimeUpdate (st : PlayerState) : PlayerState :=
  match st.audio with
  | none => st
  | some a =>
    if a.currentTime ≥ st.rangeValues.2 then
      { st with audio := some { currentTime := st.rangeValues.1, paused := true },
                isPlaying := false }
    else st

/-- `handleStartTimeChange` (App.jsx lines 274 to 283): cap the new start at
`rangeValues[1] - 1`, and while playing also move the element's position. -/
def handleStartTimeChange (seconds : Int) (st : PlayerState) : PlayerState :=
  let newStart := min seconds (st.rangeValues.2 - 1)
  let st1 := { st with rangeValues := (newStart, st.rangeValues.2) }
  match st.audio with
  | some a =>
    if st.isPlaying then { st1 with audio := some { a with currentTime := newStart } }
    else st1
  | none => st1

/-- `handleEndTimeChange` (App.jsx lines 286 to 290): raise the new end to at
least `rangeValues[0] + 1`, then cap it at `audioDuration`. -/
def handleEndTimeChange (seconds : Int) (st : PlayerState) : PlayerState :=
  let newEnd := max seconds (st.rangeValues.1 + 1)
  { st with rangeValues := (st.rangeValues.1, min newEnd st.audioDuration) }

/-! ### Helper lemmas: digit characters -/

theorem digitChar_isDigit (d : Nat) : (digitChar d).isDigit = true := by
  rcases d with _ | _ | _ | _ | _ | _ | _ | _ | _ | d <;>
    first
    | decide
    | exact (by decide : ('9' : Char).isDigit = true)

theorem digitChar_not_ws (d : Nat) : (digitChar d).isWhitespace = false := by
  rcases d with _ | _ | _ | _ | _ | _ | _ | _ | _ | d <;>
    first
    | decide
    | exact (by decide : ('9' : Char).isWhitespace = false)

theorem digitChar_ne_colon (d : Nat) : digitChar d ≠ ':' := by
  rcases d with _ | _ | _ | _ | _ | _ | _ | _ | _ | d <;>
    first
    | decide
    | exact (by decide : ('9' : Char) ≠ ':')

theorem digitChar_ne_minus (d : Nat) : digitChar d ≠ '-' := by
  rcases d with _ | _ | _ | _ | _ | _ | _ | _ | _ | d <;>
    first
    | decide
    | exact (by decide : ('9' : Char) ≠ '-')

theorem digitChar_ne_plus (d : Nat) : digitChar d ≠ '+' := by
  rcases d with _ | _ | _ | _ | _ | _ | _ | _ | _ | d <;>
    first
    | decide
    | exact (by decide : ('9' : Char) ≠ '+')

theorem digitChar_val {d : Nat} (h : d < 10) : (digitChar d).toNat - 48 = d := by
  interval_cases d <;> decide

/-! ### Helper lemmas: reading digit runs back -/

theorem foldl_digits_acc : ∀ (l : List Char) (a : Nat),
    List.foldl (fun x c => x * 10 + (c.toNat - 48)) a l
      = a * 10 ^ l.length + List.foldl (fun x c => x * 10 + (c.toNat - 48)) 0 l := by
  intro l
  induction l with
  | nil => intro a; simp
  | cons c t ih =>
    intro a
    simp only [List.foldl, List.length_cons, Nat.zero_mul, Nat.zero_add]
    rw [ih (a * 10 + (c.toNat - 48)), ih (c.toNat - 48)]
    rw [pow_succ]
    ring

theorem digitsToNat_cons (c : Char) (t : List Char) :
    digitsToNat (c :: t) = (c.toNat - 48) * 10 ^ t.length + digitsToNat t := by
  unfold digitsToNat
  simp only [List.foldl]
  rw [foldl_digits_acc]
  norm_num

theorem digitsToNat_natToDigitsAux : ∀ (fuel n : Nat) (acc : List Char), n < 10 ^ fuel →
    digitsToNat (natToDigitsAux fuel n acc) = n * 10 ^ acc.length + digitsToNat acc := by
  intro fuel
  induction fuel with
  | zero =>
    intro n acc h
    interval_cases n
    simp [natToDigitsAux]
  | succ fuel ih =>
    intro n acc h
    unfold natToDigitsAux
    split
    · next hlt =>
      rw [digitsToNat_cons, digitChar_val hlt]
    · next hge =>
      have hdiv : n / 10 < 10 ^ fuel := by
        rw [Nat.div_lt_iff_lt_mul (by norm_num)]
        calc n < 10 ^ (fuel + 1) := h
        _ = 10 ^ fuel * 10 := by rw [pow_succ]
      rw [ih (n / 10) (digitChar (n % 10) :: acc) hdiv]
      rw [digitsToNat_cons, digitChar_val (Nat.mod_lt n (by norm_num))]
      have hn : n = 10 * (n / 10) + n % 10 := (Nat.div_add_mod n 10).symm
      conv_rhs => rw [hn]
      simp only [List.length_cons, pow_succ]
      ring

theorem digitsToNat_natToDigits (n : Nat) : digitsToNat (natToDigits n) = n := by
  have h : n < 10 ^ (n + 1) := by
    calc n < 10 ^ n := Nat.lt_pow_self (by norm_num) n
    _ ≤ 10 ^ (n + 1) := Nat.pow_le_pow_right (by norm_num) (Nat.le_succ n)
  have h2 := digitsToNat_natToDigitsAux (n + 1) n [] h
  simpa [natToDigits, digitsToNat] using h2

theorem digitsToNat_padStart2 (l : List Char) : digitsToNat (padStart2 l) = digitsToNat l := by
  unfold padStart2 digitsToNat
  rw [List.foldl_append]
  have hz : ∀ k : Nat, List.foldl (fun x c => x * 10 + (c.toNat - 48)) 0
      (List.replicate k '0') = 0 := by
    intro k
    induction k with
    | zero => rfl
    | succ k ih =>
      rw [List.replicate_succ]
      simp only [List.foldl]
      have h0 : (0 : Nat) * 10 + ('0'.toNat - 48) = 0 := by decide
      rw [h0, ih]
  rw [hz]

/-! ### Helper lemmas: shape of the emitted digits -/

theorem mem_natToDigitsAux : ∀ (fuel n : Nat) (acc : List Char) (c : Char),
    c ∈ natToDigitsAux fuel n acc → c ∈ acc ∨ ∃ d, c = digitChar d := by
  intro fuel
  induction fuel with
  | zero => intro n acc c h; exact Or.inl h
  | succ fuel ih =>
    intro n acc c h
    unfold natToDigitsAux at h
    split at h
    · rcases List.mem_cons.mp h with h' | h'
      · exact Or.inr ⟨n, h'⟩
      · exact Or.inl h'
    · rcases ih (n / 10) (digitChar (n % 10) :: acc) c h with h' | h'
      · rcases List.mem_cons.mp h' with h'' | h''
        · exact Or.inr ⟨n % 10, h''⟩
        · exact Or.inl h''
      · exact Or.inr h'

theorem padStart2_natToDigits_digits {n : Nat} {c : Char}
    (h : c ∈ padStart2 (natToDigits n)) : ∃ d, c = digitChar d := by
  unfold padStart2 at h
  rcases List.mem_append.mp h with h' | h'
  · exact ⟨0, (List.eq_of_mem_replicate h')⟩
  · rcases mem_natToDigitsAux (n + 1) n [] c h' with h'' | h''
    · cases h''
    · exact h''

theorem natToDigitsAux_eq_append : ∀ (fuel n : Nat) (acc : List Char),
    ∃ p : List Char, natToDigitsAux fuel n acc = p ++ acc := by
  intro fuel
  induction fuel with
  | zero => intro n acc; exact ⟨[], rfl⟩
  | succ fuel ih =>
    intro n acc
    unfold natToDigitsAux
    split
    · exact ⟨[digitChar n], rfl⟩
    · obtain ⟨p, hp⟩ := ih (n / 10) (digitChar (n % 10) :: acc)
      exact ⟨p ++ [digitChar (n % 10)], by rw [hp]; simp⟩

theorem padStart2_natToDigits_ne_nil (n : Nat) : padStart2 (natToDigits n) ≠ [] := by
  unfold padStart2 natToDigits
  unfold natToDigitsAux
  split
  · simp
  · obtain ⟨p, hp⟩ := natToDigitsAux_eq_append n (n / 10) [digitChar (n % 10)]
    rw [hp]
    simp

/-! ### Helper lemmas: `jsParseInt` on a run of digits -/

theorem jsParseInt_digits (l : List Char) (hne : l ≠ [])
    (hd : ∀ c ∈ l, ∃ d, c = digitChar d) :
    jsParseInt l = some ((digitsToNat l : Nat) : Int) := by
  obtain ⟨c, t, rfl⟩ := List.exists_cons_of_ne_nil hne
  obtain ⟨d, hc⟩ := hd c (List.mem_cons_self c t)
  subst hc
  have hdig : ∀ x ∈ digitChar d :: t, x.isDigit = true := by
    intro x hx
    obtain ⟨e, he⟩ := hd x hx
    rw [he]
    exact digitChar_isDigit e
  have h1 : (digitChar d :: t).dropWhile Char.isWhitespace = digitChar d :: t :=
    List.dropWhile_cons_of_neg (by simp [digitChar_not_ws d])
  have hnm : ¬((digitChar d :: t).head? = some '-') := by
    simp [digitChar_ne_minus d]
  have hnp : ¬((digitChar d :: t).head? = some '-' ∨ (digitChar d :: t).head? = some '+') := by
    simp [digitChar_ne_minus d, digitChar_ne_plus d]
  have h2 : (digitChar d :: t).takeWhile Char.isDigit = digitChar d :: t := by
    rw [List.takeWhile_eq_self_iff]
    intro x hx
    exact hdig x hx
  simp only [jsParseInt, h1, if_neg hnm, if_neg hnp, h2]
  rw [if_neg (by simp : ¬(digitChar d :: t = []))]
  simp

/-! ### Helper lemmas: `splitOnColon` -/

theorem splitOnColon_no_colon : ∀ l : List Char, (∀ c ∈ l, c ≠ ':') → splitOnColon l = [l] := by
  intro l
  induction l with
  | nil => intro _; rfl
  | cons c t ih =>
    intro h
    unfold splitOnColon
    rw [if_neg (h c (List.mem_cons_self c t))]
    rw [ih (fun x hx => h x (List.mem_cons_of_mem c hx))]

theorem splitOnColon_append (a b : List Char) (ha : ∀ c ∈ a, c ≠ ':') :
    splitOnColon (a ++ ':' :: b) = a :: splitOnColon b := by
  induction a with
  | nil => simp [splitOnColon]
  | cons c t ih =>
    have hc : c ≠ ':' := ha c (List.mem_cons_self c t)
    have ht : ∀ x ∈ t, x ≠ ':' := fun x hx => ha x (List.mem_cons_of_mem c hx)
    simp only [List.cons_append]
    conv_lhs => unfold splitOnColon
    rw [if_neg hc, ih ht]

/-! ### Helper lemmas: the round trip -/

theorem string_data_append (a b : String) : (a ++ b).data = a.data ++ b.data := rfl

theorem formatTime_num_data (n : Nat) :
    (formatTime (.num (n : Int))).data
      = padStart2 (natToDigits (n / 60)) ++ ':' :: padStart2 (natToDigits (n % 60)) := by
  have hnn : ¬((n : Int) < 0) := by omega
  have hform : formatTime (.num (n : Int))
      = if (n : Int) < 0 then "00:00"
        else
          padStart2S (natToString (((n : Int) / 60).toNat)) ++ ":"
            ++ padStart2S (natToString (((n : Int) % 60).toNat)) := rfl
  rw [hform, if_neg hnn]
  have hq : ((n : Int) / 60).toNat = n / 60 := by omega
  have hr : ((n : Int) % 60).toNat = n % 60 := by omega
  rw [hq, hr]
  rw [string_data_append, string_data_append]
  show (padStart2 (natToDigits (n / 60)) ++ [':']) ++ padStart2 (natToDigits (n % 60)) = _
  simp [List.append_assoc]

theorem parse_format_round_trip (n : Nat) :
    parseTimeInput (formatTime (.num (n : Int))) = (n : Int) := by
  have hdA : ∀ c ∈ padStart2 (natToDigits (n / 60)), ∃ d, c = digitChar d :=
    fun _ hc => padStart2_natToDigits_digits hc
  have hdB : ∀ c ∈ padStart2 (natToDigits (n % 60)), ∃ d, c = digitChar d :=
    fun _ hc => padStart2_natToDigits_digits hc
  have hcolA : ∀ c ∈ padStart2 (natToDigits (n / 60)), c ≠ ':' := by
    intro c hc
    obtain ⟨d, rfl⟩ := hdA c hc
    exact digitChar_ne_colon d
  have hcolB : ∀ c ∈ padStart2 (natToDigits (n % 60)), c ≠ ':' := by
    intro c hc
    obtain ⟨d, rfl⟩ := hdB c hc
    exact digitChar_ne_colon d
  have hsplit : splitOnColon (formatTime (.num (n : Int))).data
      = [padStart2 (natToDigits (n / 60)), padStart2 (natToDigits (n % 60))] := by
    rw [formatTime_num_data n, splitOnColon_append _ _ hcolA,
      splitOnColon_no_colon _ hcolB]
  have h0 : parseTimeInput (formatTime (.num (n : Int)))
      = (match jsParseInt (padStart2 (natToDigits (n / 60))),
               jsParseInt (padStart2 (natToDigits (n % 60))) with
         | some mins, some secs => mins * 60 + secs
         | _, _ => 0) := by
    unfold parseTimeInput
    rw [hsplit]
  rw [h0, jsParseInt_digits _ (padStart2_natToDigits_ne_nil (n / 60)) hdA,
    jsParseInt_digits _ (padStart2_natToDigits_ne_nil (n % 60)) hdB]
  show ((digitsToNat (padStart2 (natToDigits (n / 60))) : Nat) : Int) * 60
      + ((digitsToNat (padStart2 (natToDigits (n % 60))) : Nat) : Int) = (n : Int)
  rw [digitsToNat_padStart2, digitsToNat_padStart2,
    digitsToNat_natToDigits, digitsToNat_natToDigits]
  push_cast
  omega

/-! ### Helper lemmas: form state and optional fields -/

theorem reachable_start_end (fd : FormData) (h : ReachableForm fd) :
    fd.start = 0 ∧ fd.«end» = 0 := by
  induction h with
  | init => exact ⟨rfl, rfl⟩
  | change f v fd h ih => cases f <;> simpa [handleChange] using ih

theorem jsStrOrUndef_spec (s : String) :
    (jsStrOrUndef s = none ↔ s = "") ∧ (s ≠ "" → jsStrOrUndef s = some s) := by
  unfold jsStrOrUndef
  split <;> simp_all

/-! ### The claims -/

/-- Claim C1, evaluated on the code: both the preview fetch of `handleConvert`
and the download fetch of `handleDownload` use method POST and one and the
same URL — but that URL is the literal text `${API_BASE}/api/convert`,
because the `fetch` argument on App.jsx lines 161 and 215 is an ordinary
double-quoted string and not a template literal, so it is not the
`/api/convert` endpoint of the configured API base (line 18's `API_BASE` is
never interpolated). Evaluated at the deployed backend base URL. -/
theorem convert_requests_target_literal_url :
    (convertFetch { initialFormData with url := "https://youtube.com/watch?v=abc" }).method
      = "POST"
    ∧ (downloadFetch { initialFormData with url := "https://youtube.com/watch?v=abc" }
        (30, 90)).method = "POST"
    ∧ (convertFetch { initialFormData with url := "https://youtube.com/watch?v=abc" }).url
      = (downloadFetch { initialFormData with url := "https://youtube.com/watch?v=abc" }
        (30, 90)).url
    ∧ (convertFetch { initialFormData with url := "https://youtube.com/watch?v=abc" }).url
      = "${API_BASE}/api/convert"
    ∧ (convertFetch { initialFormData with url := "https://youtube.com/watch?v=abc" }).url
      ≠ apiEndpoint "https://mp3converter-tiago-api.onrender.com" :=
  ⟨rfl, rfl, rfl, rfl, by decide⟩

/-- Claim C2: whenever the URL fails the recognized video-hosting shape check,
`handleConvert` surfaces the invalid-input error and issues no network
request; and whenever it issues a request, the URL passed the shape check. -/
theorem invalid_url_blocks_network (fd : FormData) (resp : ConvertResponse) :
    (isYoutubeUrl fd.url = false →
      (handleConvert fd resp).request = none
      ∧ (handleConvert fd resp).state.error = some "Please enter a valid YouTube URL")
    ∧ (∀ r : FetchRequest, (handleConvert fd resp).request = some r →
        isYoutubeUrl fd.url = true) := by
  constructor
  · intro h
    simp [handleConvert, h]
  · intro r hr
    by_cases h : isYoutubeUrl fd.url
    · exact h
    · simp [handleConvert, h] at hr

/-- Witness for C2: the URL `"not-a-url"` fails the check, produces the
error, and sends nothing; a real YouTube URL passes the check. -/
theorem invalid_url_blocks_network_witness :
    ((handleConvert { initialFormData with url := "not-a-url" }
        ⟨true, none, none, "blob:a"⟩).request = none
      ∧ (handleConvert { initialFormData with url := "not-a-url" }
        ⟨true, none, none, "blob:a"⟩).state.error = some "Please enter a valid YouTube URL")
    ∧ isYoutubeUrl "https://youtube.com/watch?v=abc" = true :=
  ⟨(invalid_url_blocks_network { initialFormData with url := "not-a-url" }
      ⟨true, none, none, "blob:a"⟩).1 (by decide),
   (invalid_url_blocks_network { initialFormData with url := "https://youtube.com/watch?v=abc" }
      ⟨true, none, none, "blob:a"⟩).2
      (convertFetch { initialFormData with url := "https://youtube.com/watch?v=abc" })
      (by decide)⟩

/-- Claim C3: in every reachable form state the preview body carries
`start = 0` and omits `end`; the download body carries
`start = rangeValues[0]` and `end = rangeValues[1]`; the download body's
metadata fields (and url) equal the preview body's; and the two fetches go to
the same URL with the same method. -/
theorem preview_and_download_request_windows
    (fd : FormData) (h : ReachableForm fd) (rangeValues : Int × Int) :
    (convertBody fd).start = 0
    ∧ (convertBody fd).«end» = none
    ∧ (downloadBody fd rangeValues).start = rangeValues.1
    ∧ (downloadBody fd rangeValues).«end» = some rangeValues.2
    ∧ (downloadBody fd rangeValues).title = (convertBody fd).title
    ∧ (downloadBody fd rangeValues).artist = (convertBody fd).artist
    ∧ (downloadBody fd rangeValues).album = (convertBody fd).album
    ∧ (downloadBody fd rangeValues).genre = (convertBody fd).genre
    ∧ (downloadBody fd rangeValues).url = (convertBody fd).url
    ∧ (downloadFetch fd rangeValues).url = (convertFetch fd).url
    ∧ (downloadFetch fd rangeValues).method = (convertFetch fd).method := by
  obtain ⟨hs, he⟩ := reachable_start_end fd h
  refine ⟨?_, ?_, rfl, rfl, rfl, rfl, rfl, rfl, rfl, rfl, rfl⟩
  · simp [convertBody, jsNumOrZero, hs]
  · simp [convertBody, jsNumOrUndef, he]

/-- Witness for C3 at the initial form state and the range `(30, 90)`. -/
theorem preview_and_download_request_windows_witness :
    (convertBody initialFormData).start = 0
    ∧ (convertBody initialFormData).«end» = none
    ∧ (downloadBody initialFormData (30, 90)).start = 30
    ∧ (downloadBody initialFormData (30, 90)).«end» = some 90 :=
  ⟨(preview_and_download_request_windows initialFormData ReachableForm.init (30, 90)).1,
   (preview_and_download_request_windows initialFormData ReachableForm.init (30, 90)).2.1,
   (preview_and_download_request_windows initialFormData ReachableForm.init (30, 90)).2.2.1,
   (preview_and_download_request_windows initialFormData ReachableForm.init (30, 90)).2.2.2.1⟩

/-- Claim C4: with the committed input value inside the bounds the
`TimeInput` components pass (`max = audioDuration - 1` for the start input,
`max = audioDuration` for the end input) and a prior range satisfying
`0 ≤ rangeValues[0] < rangeValues[1] ≤ audioDuration`, both manual trim edits
leave a range with `start ≤ end - 1` (a minimum 1 second window) and
`end ≤ audioDuration`. -/
theorem manual_trim_preserves_min_window (st : PlayerState) (v : Int)
    (_h0 : 0 ≤ st.rangeValues.1) (h1 : st.rangeValues.1 < st.rangeValues.2)
    (h2 : st.rangeValues.2 ≤ st.audioDuration) :
    (0 ≤ v → v ≤ st.audioDuration - 1 →
      (handleStartTimeChange v st).rangeValues.1
          ≤ (handleStartTimeChange v st).rangeValues.2 - 1
      ∧ (handleStartTimeChange v st).rangeValues.2 ≤ st.audioDuration)
    ∧ (0 ≤ v → v ≤ st.audioDuration →
      (handleEndTimeChange v st).rangeValues.1
          ≤ (handleEndTimeChange v st).rangeValues.2 - 1
      ∧ (handleEndTimeChange v st).rangeValues.2 ≤ st.audioDuration) := by
  have hrs : (handleStartTimeChange v st).rangeValues
      = (min v (st.rangeValues.2 - 1), st.rangeValues.2) := by
    unfold handleStartTimeChange
    cases st.audio <;> simp <;> split <;> rfl
  have hre : (handleEndTimeChange v st).rangeValues
      = (st.rangeValues.1, min (max v (st.rangeValues.1 + 1)) st.audioDuration) := rfl
  constructor
  · intro _ _
    rw [hrs]
    exact ⟨min_le_right _ _, h2⟩
  · intro _ _
    rw [hre]
    refine ⟨?_, min_le_right _ _⟩
    have hmin : st.rangeValues.1 + 1 ≤ min (max v (st.rangeValues.1 + 1)) st.audioDuration :=
      le_min (le_max_right _ _) (by omega)
    omega

/-- Witness for C4 at the state with range `(10, 20)`, duration `60`, and the
committed value `5`. -/
theorem manual_trim_preserves_min_window_witness :
    ((handleStartTimeChange 5 ⟨(10, 20), 60, none, false, 0⟩).rangeValues.1
        ≤ (handleStartTimeChange 5 ⟨(10, 20), 60, none, false, 0⟩).rangeValues.2 - 1
      ∧ (handleStartTimeChange 5 ⟨(10, 20), 60, none, false, 0⟩).rangeValues.2 ≤ 60)
    ∧ ((handleEndTimeChange 5 ⟨(10, 20), 60, none, false, 0⟩).rangeValues.1
        ≤ (handleEndTimeChange 5 ⟨(10, 20), 60, none, false, 0⟩).rangeValues.2 - 1
      ∧ (handleEndTimeChange 5 ⟨(10, 20), 60, none, false, 0⟩).rangeValues.2 ≤ 60) := by
  have h := manual_trim_preserves_min_window ⟨(10, 20), 60, none, false, 0⟩ 5
    (by decide) (by decide) (by decide)
  exact ⟨h.1 (by decide) (by decide), h.2 (by decide) (by decide)⟩

/-- Claim C5: in both request bodies each metadata field among title, artist,
album and genre is present exactly when the form field is non-empty, in which
case it carries the typed string; an empty form field is omitted
(`undefined`, dropped by `JSON.stringify`), never sent as `""`. -/
theorem metadata_fields_present_iff_nonempty (fd : FormData) (rangeValues : Int × Int) :
    ((convertBody fd).title = none ↔ fd.title = "")
    ∧ (fd.title ≠ "" → (convertBody fd).title = some fd.title)
    ∧ ((convertBody fd).artist = none ↔ fd.artist = "")
    ∧ (fd.artist ≠ "" → (convertBody fd).artist = some fd.artist)
    ∧ ((convertBody fd).album = none ↔ fd.album = "")
    ∧ (fd.album ≠ "" → (convertBody fd).album = some fd.album)
    ∧ ((convertBody fd).genre = none ↔ fd.genre = "")
    ∧ (fd.genre ≠ "" → (convertBody fd).genre = some fd.genre)
    ∧ (downloadBody fd rangeValues).title = (convertBody fd).title
    ∧ (downloadBody fd rangeValues).artist = (convertBody fd).artist
    ∧ (downloadBody fd rangeValues).album = (convertBody fd).album
    ∧ (downloadBody fd rangeValues).genre = (convertBody fd).genre :=
  ⟨(jsStrOrUndef_spec fd.title).1, (jsStrOrUndef_spec fd.title).2,
   (jsStrOrUndef_spec fd.artist).1, (jsStrOrUndef_spec fd.artist).2,
   (jsStrOrUndef_spec fd.album).1, (jsStrOrUndef_spec fd.album).2,
   (jsStrOrUndef_spec fd.genre).1, (jsStrOrUndef_spec fd.genre).2,
   rfl, rfl, rfl, rfl⟩

/-- Witness for C5: with title `"My Song"` typed and artist left empty, the
body carries `title = some "My Song"` and omits `artist`. -/
theorem metadata_fields_present_iff_nonempty_witness :
    (convertBody { initialFormData with title := "My Song" }).title = some "My Song"
    ∧ (convertBody { initialFormData with title := "My Song" }).artist = none := by
  have h := metadata_fields_present_iff_nonempty
    { initialFormData with title := "My Song" } (0, 10)
  exact ⟨h.2.1 (by decide), h.2.2.1.mpr rfl⟩

/-- Counterexample to claim C6 as stated: with the `X-Video-Title` header
present but equal to the empty string, the displayed title is `" "`, not the
header's value — `ytTitle || " "` (App.jsx line 187) substitutes the space
for the empty string too, not only for an absent header. -/
theorem displayed_title_empty_header_cex :
    (handleConvert { initialFormData with url := "https://youtu.be/abc" }
        ⟨true, some "", none, "blob:a"⟩).state.videoTitle = " "
    ∧ (" " : String) ≠ "" :=
  ⟨by decide, by decide⟩

/-- Claim C6 (amended): after a successful conversion the displayed title is
the response's `X-Video-Title` header value whenever that header is present
and non-empty, and a single space when the header is absent or empty; it is
independent of the form state, in particular of the caller-supplied `title`
field, which feeds only the request body's metadata tag and the download
filename. -/
theorem displayed_title_from_header (fd : FormData) (resp : ConvertResponse)
    (hu : isYoutubeUrl fd.url = true) (hok : resp.ok = true) :
    (∀ t : String, resp.xVideoTitle = some t → t ≠ "" →
      (handleConvert fd resp).state.videoTitle = t)
    ∧ (resp.xVideoTitle = none → (handleConvert fd resp).state.videoTitle = " ")
    ∧ (resp.xVideoTitle = some "" → (handleConvert fd resp).state.videoTitle = " ")
    ∧ (∀ fd' : FormData, isYoutubeUrl fd'.url = true →
      (handleConvert fd' resp).state.videoTitle = (handleConvert fd resp).state.videoTitle)
    ∧ (convertBody fd).title = jsStrOrUndef fd.title
    ∧ downloadFilename fd = jsOrS fd.title "download" ++ ".mp3" := by
  have hv : ∀ g : FormData, isYoutubeUrl g.url = true →
      (handleConvert g resp).state.videoTitle = jsStrOr resp.xVideoTitle " " := by
    intro g hg
    simp [handleConvert, hg, processConvertResponse, hok]
  refine ⟨?_, ?_, ?_, ?_, rfl, rfl⟩
  · intro t ht hne
    rw [hv fd hu, ht]
    simp [jsStrOr, jsOrS, hne]
  · intro ht
    rw [hv fd hu, ht]
    rfl
  · intro ht
    rw [hv fd hu, ht]
    rfl
  · intro fd' hu'
    rw [hv fd hu, hv fd' hu']

/-- Witness for C6 (amended): a present, non-empty header is displayed as is,
independently of the form's `title` field. -/
theorem displayed_title_from_header_witness :
    (handleConvert { initialFormData with url := "https://youtu.be/abc", title := "Custom" }
        ⟨true, some "Actual Title", none, "blob:a"⟩).state.videoTitle = "Actual Title" :=
  (displayed_title_from_header
      { initialFormData with url := "https://youtu.be/abc", title := "Custom" }
      ⟨true, some "Actual Title", none, "blob:a"⟩ (by decide) rfl).1
    "Actual Title" rfl (by decide)

/-- Counterexample to claim C7 as stated: a failure response whose body's
`error` field is present but equal to the empty string is displayed as the
fallback `"Conversion failed"`, not as the field's value —
`errorData.error || "Conversion failed"` (App.jsx line 182) also replaces the
empty string, not only an absent field. -/
theorem error_message_empty_field_cex :
    (handleConvert { initialFormData with url := "https://youtu.be/abc" }
        ⟨false, none, some "", ""⟩).state.error = some "Conversion failed"
    ∧ some ("Conversion failed") ≠ some ("" : String) :=
  ⟨by decide, by decide⟩

/-- Claim C7 (amended): for every non-2xx response `handleConvert` surfaces
the failure body's `error` field whenever it is present and non-empty, and
the fallback `"Conversion failed"` when the field is absent or empty; the
failed response is never treated as audio: `audioUrl` stays empty,
`isConverted` stays false, and the status reads `"Failed to convert"`. -/
theorem failure_surfaces_error_message (fd : FormData) (resp : ConvertResponse)
    (hu : isYoutubeUrl fd.url = true) (hok : resp.ok = false) :
    (∀ m : String, resp.errorField = some m → m ≠ "" →
      (handleConvert fd resp).state.error = some m)
    ∧ (resp.errorField = none →
      (handleConvert fd resp).state.error = some "Conversion failed")
    ∧ (resp.errorField = some "" →
      (handleConvert fd resp).state.error = some "Conversion failed")
    ∧ (handleConvert fd resp).state.isConverted = false
    ∧ (handleConvert fd resp).state.audioUrl = ""
    ∧ (handleConvert fd resp).state.status = "Failed to convert" := by
  have hst : (handleConvert fd resp).state
      = { status := "Failed to convert",
          error := some (jsStrOr resp.errorField "Conversion failed"),
          isConverted := false, audioUrl := "", videoTitle := "" } := by
    simp [handleConvert, hu, processConvertResponse, hok]
  refine ⟨?_, ?_, ?_, ?_, ?_, ?_⟩
  · intro m hm hne
    rw [hst, hm] at *
    simp [jsStrOr, jsOrS, hne]
  · intro hm
    rw [hst, hm]
    rfl
  · intro hm
    rw [hst, hm]
    rfl
  · rw [hst]
  · rw [hst]
  · rw [hst]

/-- Witness for C7 (amended): a non-empty `error` field is surfaced verbatim
and the failed response sets no audio state. -/
theorem failure_surfaces_error_message_witness :
    (handleConvert { initialFormData with url := "https://youtu.be/abc" }
        ⟨false, none, some "Video unavailable", ""⟩).state.error = some "Video unavailable"
    ∧ (handleConvert { initialFormData with url := "https://youtu.be/abc" }
        ⟨false, none, some "Video unavailable", ""⟩).state.isConverted = false
    ∧ (handleConvert { initialFormData with url := "https://youtu.be/abc" }
        ⟨false, none, some "Video unavailable", ""⟩).state.audioUrl = "" :=
  ⟨(failure_surfaces_error_message { initialFormData with url := "https://youtu.be/abc" }
      ⟨false, none, some "Video unavailable", ""⟩ (by decide) rfl).1
      "Video unavailable" rfl (by decide),
   (failure_surfaces_error_message { initialFormData with url := "https://youtu.be/abc" }
      ⟨false, none, some "Video unavailable", ""⟩ (by decide) rfl).2.2.2.1,
   (failure_surfaces_error_message { initialFormData with url := "https://youtu.be/abc" }
      ⟨false, none, some "Video unavailable", ""⟩ (by decide) rfl).2.2.2.2.1⟩

/-- Claim C8: `parseTimeInput` inverts `formatTime` on every non-negative
whole number of seconds, and `formatTime` yields `"00:00"` on `NaN` and on
every negative input. -/
theorem formatTime_parseTimeInput_round_trip :
    (∀ n : Nat, parseTimeInput (formatTime (.num (n : Int))) = (n : Int))
    ∧ formatTime .nan = "00:00"
    ∧ (∀ z : Int, z < 0 → formatTime (.num z) = "00:00") := by
  refine ⟨parse_format_round_trip, rfl, ?_⟩
  intro z hz
  have hform : formatTime (.num z)
      = if z < 0 then "00:00"
        else
          padStart2S (natToString ((z / 60).toNat)) ++ ":"
            ++ padStart2S (natToString ((z % 60).toNat)) := rfl
  rw [hform, if_pos hz]

/-- Witness for C8 at `n = 125` (formatted `"02:05"`) and `z = -3`. -/
theorem formatTime_parseTimeInput_round_trip_witness :
    parseTimeInput (formatTime (.num ((125 : Nat) : Int))) = ((125 : Nat) : Int)
    ∧ ((-3 : Int) < 0 ∧ formatTime (.num (-3)) = "00:00") :=
  ⟨formatTime_parseTimeInput_round_trip.1 125,
   by decide, formatTime_parseTimeInput_round_trip.2.2 (-3) (by decide)⟩

/-! ### Helper lemmas: `parseTimeInput` failure cases -/

theorem parseTimeInput_parts (text : String) :
    ((splitOnColon text.data).length ≠ 2 → parseTimeInput text = 0)
    ∧ (∀ p0 p1, splitOnColon text.data = [p0, p1] →
        (jsParseInt p0 = none ∨ jsParseInt p1 = none) → parseTimeInput text = 0) := by
  constructor
  · intro h
    unfold parseTimeInput
    rcases hs : splitOnColon text.data with _ | ⟨p0, _ | ⟨p1, _ | ⟨p2, r⟩⟩⟩
    · rfl
    · rfl
    · rw [hs] at h
      exact absurd rfl h
    · rfl
  · intro p0 p1 hs hnone
    unfold parseTimeInput
    rw [hs]
    show (match jsParseInt p0, jsParseInt p1 with
          | some mins, some secs => mins * 60 + secs
          | _, _ => (0 : Int)) = (0 : Int)
    cases hq0 : jsParseInt p0 with
    | none => rfl
    | some m =>
      cases hq1 : jsParseInt p1 with
      | none => rfl
      | some s =>
        rcases hnone with h | h
        · rw [hq0] at h
          exact Option.noConfusion h
        · rw [hq1] at h
          exact Option.noConfusion h

/-- Counterexample to claim C9 as stated: the text `"00:1x"` does not consist
of two colon-separated numeric parts (its second part `"1x"` contains a
non-digit), yet the committed value is `1`, not `0` — `parseInt("1x", 10)`
reads the leading digit and ignores the trailing garbage. -/
theorem time_input_commit_nonnumeric_cex :
    splitOnColon ("00:1x".data) = ["00".data, "1x".data]
    ∧ ("1x".data.all Char.isDigit) = false
    ∧ timeInputCommit "00:1x" 10 = 1
    ∧ (1 : Int) ≠ 0 :=
  ⟨by decide, by decide, by decide, by decide⟩

/-- Claim C9 (amended): for a non-negative `max` the blur handler commits
exactly `parseTimeInput` of the typed text clamped to `[0, max]`, so
`onChange` never receives a value below `0` or above `max`; text that does
not split into exactly two colon-separated parts commits `0`, and so does
text either of whose two parts gives `parseInt` no leading integer. (A part
with a leading integer followed by garbage parses by its digit prefix, which
is what falsifies the claim as stated.) -/
theorem time_input_commit_clamps (text : String) (mx : Int) (hmx : 0 ≤ mx) :
    timeInputCommit text mx = min (max 0 (parseTimeInput text)) mx
    ∧ 0 ≤ timeInputCommit text mx
    ∧ timeInputCommit text mx ≤ mx
    ∧ ((splitOnColon text.data).length ≠ 2 → timeInputCommit text mx = 0)
    ∧ (∀ p0 p1, splitOnColon text.data = [p0, p1] →
        (jsParseInt p0 = none ∨ jsParseInt p1 = none) → timeInputCommit text mx = 0) := by
  have hz : parseTimeInput text = 0 → timeInputCommit text mx = 0 := by
    intro h
    unfold timeInputCommit
    rw [h, max_self 0]
    exact min_eq_left hmx
  refine ⟨rfl, le_min (le_max_left _ _) hmx, min_le_right _ _, ?_, ?_⟩
  · intro h
    exact hz ((parseTimeInput_parts text).1 h)
  · intro p0 p1 hs hn
    exact hz ((parseTimeInput_parts text).2 p0 p1 hs hn)

/-- Witness for C9 (amended): `"99:99"` is committed clamped into `[0, 120]`,
and the colon-free text `"abc"` commits `0`. -/
theorem time_input_commit_clamps_witness :
    timeInputCommit "99:99" 120 = min (max 0 (parseTimeInput "99:99")) 120
    ∧ 0 ≤ timeInputCommit "99:99" 120
    ∧ timeInputCommit "99:99" 120 ≤ 120
    ∧ timeInputCommit "abc" 120 = 0 :=
  ⟨(time_input_commit_clamps "99:99" 120 (by decide)).1,
   (time_input_commit_clamps "99:99" 120 (by decide)).2.1,
   (time_input_commit_clamps "99:99" 120 (by decide)).2.2.1,
   (time_input_commit_clamps "abc" 120 (by decide)).2.2.2.1 (by decide)⟩

/-- Claim C10: whenever the audio element's observed position has reached or
passed `rangeValues[1]`, both the 100 ms polling handler and the element's
`onTimeUpdate` handler leave the element paused, clear `isPlaying`, and reset
the element's position to `rangeValues[0]`. -/
theorem playback_stops_at_end_bound (st : PlayerState) (a : AudioEl)
    (ha : st.audio = some a) (hend : st.rangeValues.2 ≤ a.currentTime) :
    (updateTime st).audio = some { currentTime := st.rangeValues.1, paused := true }
    ∧ (updateTime st).isPlaying = false
    ∧ (onTimeUpdate st).audio = some { currentTime := st.rangeValues.1, paused := true }
    ∧ (onTimeUpdate st).isPlaying = false := by
  have h : a.currentTime ≥ st.rangeValues.2 := hend
  unfold updateTime onTimeUpdate
  rw [ha]
  simp [if_pos h]

/-- Witness for C10: position `9` has passed the end bound `7`, so both
handlers pause at `2`, the start of the selected range. -/
theorem playback_stops_at_end_bound_witness :
    (updateTime ⟨(2, 7), 60, some ⟨9, false⟩, true, 0⟩).audio
        = some { currentTime := 2, paused := true }
    ∧ (updateTime ⟨(2, 7), 60, some ⟨9, false⟩, true, 0⟩).isPlaying = false
    ∧ (onTimeUpdate ⟨(2, 7), 60, some ⟨9, false⟩, true, 0⟩).audio
        = some { currentTime := 2, paused := true }
    ∧ (onTimeUpdate ⟨(2, 7), 60, some ⟨9, false⟩, true, 0⟩).isPlaying = false :=
  playback_stops_at_end_bound ⟨(2, 7), 60, some ⟨9, false⟩, true, 0⟩ ⟨9, false⟩ rfl (by decide)
